import Mathlib

-- Shallow embedding of the nine-picture-grid application.
--
-- The repository is a client for an external object store and identity
-- provider.  We embed its own logic as pure Lean functions:
--   * the storage service class (ensureBucketExists, uploadImage,
--     getGridImages, deleteImage) becomes explicit state passing over a
--     `World` (remote buckets/objects, the cached init flag, the log sink);
--   * outcomes of the external provider calls (listing errors, upload
--     errors, ...) are inputs, collected in `StorageEnv`;
--   * the grid component handlers become functions on `GridState`;
--   * the canvas image transform becomes a function on decoded dimensions.

-- ## Log sink (context/log-context, consumed via addLog)

inductive LogLevel
  | info
  | warning
  | error
  | success
deriving DecidableEq

structure LogEntry where
  message : String
  level : LogLevel
deriving DecidableEq

-- ## Remote storage world and external-call outcomes

structure World where
  buckets : List String
  objects : List String
  bucketInitialized : Bool
  logs : List LogEntry
deriving DecidableEq

def addLog (w : World) (m : String) (lvl : LogLevel) : World :=
  { w with logs := w.logs ++ [⟨m, lvl⟩] }

-- Which external storage calls succeed in a given run.
structure StorageEnv where
  listBucketsOk : Bool
  createBucketOk : Bool
  listOk : Bool
  uploadOk : Bool
  removeOk : Bool
deriving DecidableEq

-- Storage operations actually issued against the provider.
inductive StorageCall
  | listBuckets
  | createBucket (name : String) (isPublic : Bool) (fileSizeLimit : Nat)
  | listFiles
  | upload (name : String)
  | removeFiles (names : List String)
deriving DecidableEq

structure SvcResult (α : Type) where
  value : α
  world : World
  calls : List StorageCall

-- ## Names, URLs and the slot-name pattern

def DEFAULT_BUCKET_NAME : String := "nine-picture-grid-images"

-- getPublicUrl: stable public URL of an object, determined by its name.
def publicUrl (name : String) : String :=
  "/storage/v1/object/public/" ++ DEFAULT_BUCKET_NAME ++ "/" ++ name

-- fileName = `slot-${slotNumber}-${Date.now()}.jpg`
def mkFileName (slotNumber : Nat) (now : Nat) : String :=
  "slot-" ++ toString slotNumber ++ "-" ++ toString now ++ ".jpg"

-- the literal prefix used by deleteImage: `slot-${slotNumber}-`
def slotNameStart (slotNumber : Nat) : String :=
  "slot-" ++ toString slotNumber ++ "-"

def nameStartsWith (s t : String) : Bool :=
  decide (s.toList.take t.toList.length = t.toList)

def natOfDigits (ds : List Char) : Nat :=
  ds.foldl (fun acc c => acc * 10 + (c.toNat - 48)) 0

-- file.name.match(/^slot-(\d+)-/): literal "slot-", then a maximal nonempty
-- digit run, then a literal "-"; the captured digits are read in base 10.
def parseSlotMatch (cs : List Char) : Option Nat :=
  if cs.take 5 = "slot-".toList then
    let rest := cs.drop 5
    let ds := rest.takeWhile Char.isDigit
    if ds.isEmpty then none
    else
      match rest.drop ds.length with
      | '-' :: _ => some (natOfDigits ds)
      | _ => none
  else none

def parseSlot (name : String) : Option Nat :=
  parseSlotMatch name.toList

-- a stored name is well formed when the digits it carries for its slot are
-- the canonical decimal of that slot number, as the application writes them
def wfName (nm : String) : Bool :=
  match parseSlot nm with
  | some k => nameStartsWith nm (slotNameStart k)
  | none => true

-- ## The slotImages object built by getGridImages
-- A JS object with numeric keys, as an association list: assigning an
-- existing key updates it in place, a fresh key is appended.

def objSet : List (Nat × String) → Nat → String → List (Nat × String)
  | [], k, v => [(k, v)]
  | p :: m, k, v => if p.1 = k then (k, v) :: m else p :: objSet m k v

def objGet : List (Nat × String) → Nat → Option String
  | [], _ => none
  | p :: m, k => if p.1 = k then some p.2 else objGet m k

-- loop body of getGridImages: slotImages[slotNumber] = publicUrl
def slotStep (m : List (Nat × String)) (nm : String) : List (Nat × String) :=
  match parseSlot nm with
  | some k => objSet m k (publicUrl nm)
  | none => m

def slotImagesOf (files : List String) : List (Nat × String) :=
  files.foldl slotStep []

-- ## SupabaseService (lib/supabase-service)

def ensureBucketExists (env : StorageEnv) (w : World) : SvcResult Bool :=
  if w.bucketInitialized then
    ⟨true, w, []⟩
  else
    let w1 := addLog w ("Checking if bucket exists: " ++ DEFAULT_BUCKET_NAME) .info
    if env.listBucketsOk = false then
      let w2 := addLog w1 "Error listing buckets" .error
      let w3 := addLog w2 ("Error ensuring bucket " ++ DEFAULT_BUCKET_NAME ++ " exists") .error
      ⟨false, w3, [.listBuckets]⟩
    else if w.buckets.contains DEFAULT_BUCKET_NAME then
      let w2 := addLog w1 ("Bucket " ++ DEFAULT_BUCKET_NAME ++ " already exists") .success
      ⟨true, { w2 with bucketInitialized := true }, [.listBuckets]⟩
    else
      let w2 := addLog w1 ("Bucket " ++ DEFAULT_BUCKET_NAME ++ " not found, initiating bucket creation") .info
      if env.createBucketOk then
        let w3 := addLog w2 ("Successfully created Supabase Storage bucket: " ++ DEFAULT_BUCKET_NAME) .success
        ⟨true, { w3 with buckets := w3.buckets ++ [DEFAULT_BUCKET_NAME], bucketInitialized := true },
          [.listBuckets, .createBucket DEFAULT_BUCKET_NAME true 5242880]⟩
      else
        let w3 := addLog w2 ("Failed to create bucket " ++ DEFAULT_BUCKET_NAME) .error
        let w4 := addLog w3 ("Error ensuring bucket " ++ DEFAULT_BUCKET_NAME ++ " exists") .error
        ⟨false, w4, [.listBuckets, .createBucket DEFAULT_BUCKET_NAME true 5242880]⟩

-- session : whether auth.getSession returns an active session.
-- imageData is the data URL; its bytes do not influence control flow.
def uploadImage (session : Bool) (env : StorageEnv) (now : Nat)
    (imageData : String) (slotNumber : Nat) (w : World) : SvcResult (Option String) :=
  if session = false then
    ⟨none, addLog w ("Failed to upload image to bucket " ++ DEFAULT_BUCKET_NAME) .error, []⟩
  else
    let r := ensureBucketExists env w
    if r.value = false then
      ⟨none, addLog r.world ("Failed to upload image to bucket " ++ DEFAULT_BUCKET_NAME) .error, r.calls⟩
    else
      let fileName := mkFileName slotNumber now
      let w1 := addLog r.world ("Attempting to upload image to bucket " ++ DEFAULT_BUCKET_NAME ++ ", file: " ++ fileName) .info
      if env.uploadOk = false then
        let w2 := addLog w1 ("Error uploading image to bucket " ++ DEFAULT_BUCKET_NAME) .error
        let w3 := addLog w2 ("Failed to upload image to bucket " ++ DEFAULT_BUCKET_NAME) .error
        ⟨none, w3, r.calls ++ [.upload fileName]⟩
      else
        let w2 := { w1 with objects := w1.objects ++ [fileName] }
        let w3 := addLog w2 ("Successfully uploaded image to bucket " ++ DEFAULT_BUCKET_NAME) .success
        ⟨some (publicUrl fileName), w3, r.calls ++ [.upload fileName]⟩

def getGridImages (env : StorageEnv) (w : World) : SvcResult (List (Nat × String)) :=
  let r := ensureBucketExists env w
  if r.value = false then
    ⟨[], addLog r.world ("Cannot retrieve images: bucket " ++ DEFAULT_BUCKET_NAME ++ " does not exist") .error, r.calls⟩
  else
    let w1 := addLog r.world ("Listing files in bucket " ++ DEFAULT_BUCKET_NAME) .info
    if env.listOk = false then
      let w2 := addLog w1 ("Error listing files in bucket " ++ DEFAULT_BUCKET_NAME) .error
      let w3 := addLog w2 ("Error retrieving grid images from bucket " ++ DEFAULT_BUCKET_NAME) .error
      ⟨[], w3, r.calls ++ [.listFiles]⟩
    else if w1.objects.isEmpty then
      ⟨[], addLog w1 ("No files found in bucket " ++ DEFAULT_BUCKET_NAME) .info, r.calls ++ [.listFiles]⟩
    else
      let w2 := addLog w1 ("Found " ++ toString w1.objects.length ++ " files in bucket " ++ DEFAULT_BUCKET_NAME) .success
      let m := slotImagesOf w2.objects
      let w3 := addLog w2 ("Processed image URLs for " ++ toString m.length ++ " slots") .success
      ⟨m, w3, r.calls ++ [.listFiles]⟩

def deleteImage (session : Bool) (env : StorageEnv) (slotNumber : Nat) (w : World) : SvcResult Bool :=
  if session = false then
    ⟨false, addLog w ("Error deleting image for slot " ++ toString slotNumber) .error, []⟩
  else
    let r := ensureBucketExists env w
    if r.value = false then
      ⟨false, addLog r.world ("Cannot delete image: bucket " ++ DEFAULT_BUCKET_NAME ++ " does not exist") .error, r.calls⟩
    else
      let w1 := addLog r.world ("Listing files in bucket " ++ DEFAULT_BUCKET_NAME ++ " for slot " ++ toString slotNumber) .info
      if env.listOk = false then
        let w2 := addLog w1 ("Error listing files in bucket " ++ DEFAULT_BUCKET_NAME) .error
        let w3 := addLog w2 ("Error deleting image for slot " ++ toString slotNumber) .error
        ⟨false, w3, r.calls ++ [.listFiles]⟩
      else
        let filesToDelete := w1.objects.filter (fun nm => nameStartsWith nm (slotNameStart slotNumber))
        if filesToDelete.isEmpty then
          ⟨true, addLog w1 ("No files found for slot " ++ toString slotNumber ++ " in bucket " ++ DEFAULT_BUCKET_NAME) .info,
            r.calls ++ [.listFiles]⟩
        else
          let w2 := addLog w1 ("Attempting to delete " ++ toString filesToDelete.length ++ " files for slot " ++ toString slotNumber) .info
          if env.removeOk = false then
            let w3 := addLog w2 ("Error deleting files for slot " ++ toString slotNumber) .error
            let w4 := addLog w3 ("Error deleting image for slot " ++ toString slotNumber) .error
            ⟨false, w4, r.calls ++ [.listFiles, .removeFiles filesToDelete]⟩
          else
            let w3 := { w2 with objects := w2.objects.filter (fun nm => !(decide (nm ∈ filesToDelete))) }
            let w4 := addLog w3 ("Successfully deleted files for slot " ++ toString slotNumber) .success
            ⟨true, w4, r.calls ++ [.listFiles, .removeFiles filesToDelete]⟩

-- ## Image transform (components/image-upload-slot, processImageToSquare)

structure CroppedImage where
  width : Nat
  height : Nat
  offsetX : ℚ
  offsetY : ℚ
  mime : String
  quality : ℚ
deriving DecidableEq

inductive DecodeResult
  | ok (width height : Nat)
  | err
deriving DecidableEq

inductive UploadPayload
  | original (dataUrl : String)
  | square (img : CroppedImage)
deriving DecidableEq

structure SlotOutcome where
  uploaded : Option UploadPayload
  uploadError : Option String
  isUploading : Bool
deriving DecidableEq

-- decode is the outcome of the img load (img.onload with intrinsic
-- dimensions, or img.onerror); ctxOk is whether canvas.getContext succeeds.
def processImageToSquare (decode : DecodeResult) (ctxOk : Bool) (dataUrl : String) : SlotOutcome :=
  match decode with
  | .err => ⟨none, some "Error loading image for processing", false⟩
  | .ok w h =>
    if ctxOk = false then
      ⟨some (.original dataUrl), some "Failed to get canvas context", false⟩
    else
      let size := min w h
      ⟨some (.square ⟨size, size, ((w : ℚ) - (size : ℚ)) / 2, ((h : ℚ) - (size : ℚ)) / 2,
        "image/jpeg", 92 / 100⟩), none, false⟩

-- ## Grid component (components/nine-picture-grid)

structure GridState where
  images : List String
  text : String
  error : Option String
  isLoading : Bool
deriving DecidableEq

def initialGridState : GridState :=
  ⟨List.replicate 9 "", "", none, true⟩

def authUploadMsg : String :=
  "You must be signed in to upload images. Please go to the Account tab to sign in."

def authRemoveMsg : String :=
  "You must be signed in to remove images. Please go to the Account tab to sign in."

def authSaveMsg : String :=
  "You must be signed in to save the grid. Please go to the Account tab to sign in."

def authResetMsg : String :=
  "You must be signed in to reset the grid. Please go to the Account tab to sign in."

-- Object.entries(slotImages).forEach: apply an entry only when its parsed
-- key is a number in [0, 9).  Keys are naturals, so only k < 9 is checked.
def applyRemote (images : List String) (slotImages : List (Nat × String)) : List String :=
  slotImages.foldl (fun imgs p => if p.1 < 9 then imgs.set p.1 p.2 else imgs) images

def loadImagesFromSupabase (env : StorageEnv) (g : GridState) (w : World) :
    GridState × World × List StorageCall :=
  let g0 := { g with isLoading := true, error := none }
  let w0 := addLog w "Loading images from Supabase" .info
  let r := ensureBucketExists env w0
  if r.value = false then
    let w1 := addLog r.world "Error loading images from Supabase" .error
    ({ g0 with error := some "Failed to load images. Check the Debug tab for details.", isLoading := false }, w1, r.calls)
  else
    let s := getGridImages env r.world
    let w1 := addLog s.world "Images loaded successfully from Supabase" .success
    ({ g0 with images := applyRemote g0.images s.value, isLoading := false }, w1, r.calls ++ s.calls)

def handleImageUpload (session : Bool) (env : StorageEnv) (now : Nat)
    (index : Nat) (imageDataUrl : String) (g : GridState) (w : World) :
    GridState × World × List StorageCall :=
  if session = false then
    ({ g with error := some authUploadMsg }, addLog w "Upload attempted without authentication" .error, [])
  else
    let w0 := addLog w ("Uploading image to slot " ++ toString (index + 1)) .info
    let r := uploadImage session env now imageDataUrl index w0
    match r.value with
    | none =>
      -- the component throws Error("Failed to upload image to Supabase");
      -- that message does not contain "auth", so the generic branch runs
      let w1 := addLog r.world ("Error uploading image to slot " ++ toString (index + 1)) .error
      ({ g with error := some "Failed to upload image. Check the Debug tab for details." }, w1, r.calls)
    | some url =>
      let w1 := addLog r.world ("Image uploaded to slot " ++ toString (index + 1) ++ " successfully") .success
      ({ g with images := g.images.set index url }, w1, r.calls)

def handleImageRemove (session : Bool) (env : StorageEnv) (index : Nat)
    (g : GridState) (w : World) : GridState × World × List StorageCall :=
  if session = false then
    ({ g with error := some authRemoveMsg }, addLog w "Image removal attempted without authentication" .error, [])
  else
    let w0 := addLog w ("Removing image from slot " ++ toString (index + 1)) .info
    -- the boolean result of deleteImage is not inspected by the component
    let r := deleteImage session env index w0
    let w1 := addLog r.world ("Image removed from slot " ++ toString (index + 1) ++ " successfully") .success
    ({ g with images := g.images.set index "" }, w1, r.calls)

def handleSave (session : Bool) (g : GridState) (w : World) :
    GridState × World × List StorageCall :=
  if session = false then
    ({ g with error := some authSaveMsg }, addLog w "Save attempted without authentication" .error, [])
  else
    let w0 := addLog w "Saving grid data" .info
    (g, addLog w0 "Grid data saved successfully" .success, [])

def handleReset (session : Bool) (env : StorageEnv) (g : GridState) (w : World) :
    GridState × World × List StorageCall :=
  if session = false then
    ({ g with error := some authResetMsg }, addLog w "Reset attempted without authentication" .error, [])
  else
    let w0 := addLog w "Resetting grid" .info
    let step := fun (acc : World × List StorageCall) (i : Nat) =>
      if g.images.getD i "" ≠ "" then
        let r := deleteImage session env i acc.1
        (r.world, acc.2 ++ r.calls)
      else acc
    let res := (List.range 9).foldl step (w0, [])
    let w1 := addLog res.1 "Grid reset successfully" .success
    ({ g with images := List.replicate 9 "", text := "" }, w1, res.2)

-- composition of the slot transform with the grid upload handler; toDataUrl
-- is the host encoder canvas.toDataURL producing the JPEG data URL
def slotUploadFlow (toDataUrl : CroppedImage → String) (session : Bool) (env : StorageEnv)
    (now : Nat) (decode : DecodeResult) (ctxOk : Bool) (dataUrl : String) (index : Nat)
    (g : GridState) (w : World) : GridState × World × List StorageCall :=
  let o := processImageToSquare decode ctxOk dataUrl
  match o.uploaded with
  | none => (g, w, [])
  | some (.original d) => handleImageUpload session env now index d g w
  | some (.square c) => handleImageUpload session env now index (toDataUrl c) g w

-- slot reference invariant: empty, or the public URL of some stored object
def slotRefOk (s : String) : Prop :=
  s = "" ∨ ∃ nm, s = publicUrl nm

def errorCount (logs : List LogEntry) : Nat :=
  (logs.filter (fun e => decide (e.level = .error))).length

-- ## Supporting lemmas about the slotImages object

theorem objGet_objSet_self (m : List (Nat × String)) (k : Nat) (v : String) :
    objGet (objSet m k v) k = some v := by
  induction m with
  | nil => simp [objSet, objGet]
  | cons p m ih =>
    by_cases h : p.1 = k
    · simp [objSet, objGet, h]
    · simp [objSet, objGet, h, ih]

theorem objGet_objSet_ne (m : List (Nat × String)) (j k : Nat) (v : String) (h : j ≠ k) :
    objGet (objSet m j v) k = objGet m k := by
  induction m with
  | nil => simp [objSet, objGet, h]
  | cons p m ih =>
    by_cases hp : p.1 = j
    · simp [objSet, objGet, hp, h]
    · by_cases hk : p.1 = k
      · simp [objSet, objGet, hp, hk, Ne.symm h]
      · simp [objSet, objGet, hp, hk, ih]

theorem mem_objSet (m : List (Nat × String)) (k : Nat) (v : String) (q : Nat × String)
    (hq : q ∈ objSet m k v) : q = (k, v) ∨ q ∈ m := by
  induction m with
  | nil => simpa [objSet] using hq
  | cons p m ih =>
    by_cases h : p.1 = k
    · simp [objSet, h] at hq
      rcases hq with h1 | h1
      · exact Or.inl (by simp [h1])
      · exact Or.inr (List.mem_cons_of_mem _ h1)
    · simp [objSet, h] at hq
      rcases hq with h1 | h1
      · exact Or.inr (by simp [h1])
      · rcases ih h1 with h2 | h2
        · exact Or.inl h2
        · exact Or.inr (List.mem_cons_of_mem _ h2)

theorem objGet_eq_none (m : List (Nat × String)) (k : Nat) :
    objGet m k = none ↔ ∀ p ∈ m, p.1 ≠ k := by
  induction m with
  | nil => simp [objGet]
  | cons p m ih =>
    by_cases h : p.1 = k
    · simp [objGet, h]
    · simp [objGet, h, ih]

theorem mem_foldl_slotStep (files : List String) (m0 : List (Nat × String)) (q : Nat × String)
    (hq : q ∈ files.foldl slotStep m0) :
    q ∈ m0 ∨ ∃ nm, nm ∈ files ∧ parseSlot nm = some q.1 ∧ q.2 = publicUrl nm := by
  induction files generalizing m0 with
  | nil => exact Or.inl hq
  | cons nm files ih =>
    rw [List.foldl_cons] at hq
    rcases ih (slotStep m0 nm) hq with h | ⟨nm2, h1, h2, h3⟩
    · cases hp : parseSlot nm with
      | none => exact Or.inl (by simpa [slotStep, hp] using h)
      | some k =>
        rcases mem_objSet m0 k (publicUrl nm) q (by simpa [slotStep, hp] using h) with h2 | h2
        · exact Or.inr ⟨nm, List.mem_cons_self _ _, by simp [h2, hp], by simp [h2]⟩
        · exact Or.inl h2
    · exact Or.inr ⟨nm2, List.mem_cons_of_mem _ h1, h2, h3⟩

theorem mem_slotImagesOf (files : List String) (q : Nat × String)
    (hq : q ∈ slotImagesOf files) :
    ∃ nm, nm ∈ files ∧ parseSlot nm = some q.1 ∧ q.2 = publicUrl nm := by
  rcases mem_foldl_slotStep files [] q hq with h | h
  · exact absurd h (List.not_mem_nil q)
  · exact h

theorem objGet_slotImagesOf_none (files : List String) (k : Nat)
    (h : ∀ nm ∈ files, parseSlot nm ≠ some k) :
    objGet (slotImagesOf files) k = none := by
  rw [objGet_eq_none]
  intro p hp hk
  rcases mem_slotImagesOf files p hp with ⟨nm, h1, h2, _⟩
  rw [hk] at h2
  exact h nm h1 h2

theorem objGet_slotStep_isSome (m : List (Nat × String)) (k : Nat) (nm : String)
    (h : (objGet m k).isSome = true) : (objGet (slotStep m nm) k).isSome = true := by
  cases hp : parseSlot nm with
  | none => simpa [slotStep, hp] using h
  | some j =>
    by_cases hj : j = k
    · subst hj
      simp [slotStep, hp, objGet_objSet_self]
    · simpa [slotStep, hp, objGet_objSet_ne m j k _ hj] using h

theorem objGet_foldl_isSome (files : List String) (k : Nat) :
    ∀ m0 : List (Nat × String),
      ((objGet m0 k).isSome = true ∨ ∃ nm, nm ∈ files ∧ parseSlot nm = some k) →
      (objGet (files.foldl slotStep m0) k).isSome = true := by
  induction files with
  | nil =>
    intro m0 h
    rcases h with h | ⟨nm, h1, _⟩
    · exact h
    · exact absurd h1 (List.not_mem_nil nm)
  | cons nm files ih =>
    intro m0 h
    rw [List.foldl_cons]
    rcases h with h | ⟨nm2, h1, h2⟩
    · exact ih _ (Or.inl (objGet_slotStep_isSome m0 k nm h))
    · rcases List.mem_cons.mp h1 with h3 | h3
      · subst h3
        exact ih _ (Or.inl (by simp [slotStep, h2, objGet_objSet_self]))
      · exact ih _ (Or.inr ⟨nm2, h3, h2⟩)

-- ## Supporting lemmas about applyRemote

theorem applyRemote_cons (images : List String) (p : Nat × String) (m : List (Nat × String)) :
    applyRemote images (p :: m) =
      applyRemote (if p.1 < 9 then images.set p.1 p.2 else images) m := by
  by_cases h9 : p.1 < 9 <;> simp [applyRemote, h9]

theorem applyRemote_getElem?_absent (m : List (Nat × String)) (images : List String) (k : Nat)
    (h : objGet m k = none) : (applyRemote images m)[k]? = images[k]? := by
  induction m generalizing images with
  | nil => rfl
  | cons p m ih =>
    have hp : p.1 ≠ k ∧ objGet m k = none := by
      by_cases hc : p.1 = k
      · simp [objGet, hc] at h
      · exact ⟨hc, by simpa [objGet, hc] using h⟩
    rw [applyRemote_cons, ih _ hp.2]
    by_cases h9 : p.1 < 9
    · simp [h9, List.getElem?_set_ne hp.1]
    · simp [h9]

theorem applyRemote_length (m : List (Nat × String)) (images : List String) :
    (applyRemote images m).length = images.length := by
  induction m generalizing images with
  | nil => rfl
  | cons p m ih =>
    rw [applyRemote_cons, ih]
    by_cases h9 : p.1 < 9 <;> simp [h9]

theorem mem_applyRemote (m : List (Nat × String)) (images : List String) (s : String)
    (hs : s ∈ applyRemote images m) : s ∈ images ∨ ∃ p, p ∈ m ∧ s = p.2 := by
  induction m generalizing images with
  | nil => exact Or.inl hs
  | cons p m ih =>
    rw [applyRemote_cons] at hs
    rcases ih _ hs with h | ⟨q, h1, h2⟩
    · by_cases h9 : p.1 < 9
      · rw [if_pos h9] at h
        rcases List.mem_or_eq_of_mem_set h with h2 | h2
        · exact Or.inl h2
        · exact Or.inr ⟨p, List.mem_cons_self _ _, h2⟩
      · rw [if_neg h9] at h
        exact Or.inl h
    · exact Or.inr ⟨q, List.mem_cons_of_mem _ h1, h2⟩

theorem applyRemote_filter_lt9 (m : List (Nat × String)) (images : List String) :
    applyRemote images m = applyRemote images (m.filter (fun p => decide (p.1 < 9))) := by
  induction m generalizing images with
  | nil => rfl
  | cons p m ih =>
    by_cases h9 : p.1 < 9
    · rw [applyRemote_cons, if_pos h9, ih]
      have hf : (p :: m).filter (fun p => decide (p.1 < 9)) =
          p :: m.filter (fun p => decide (p.1 < 9)) := by
        simp [List.filter_cons, h9]
      rw [hf, applyRemote_cons, if_pos h9]
    · rw [applyRemote_cons, if_neg h9, ih]
      have hf : (p :: m).filter (fun p => decide (p.1 < 9)) =
          m.filter (fun p => decide (p.1 < 9)) := by
        simp [List.filter_cons, h9]
      rw [hf]

-- ## Supporting lemmas about the service operations

theorem ensure_objects (env : StorageEnv) (w : World) :
    (ensureBucketExists env w).world.objects = w.objects := by
  cases h1 : w.bucketInitialized <;> cases h2 : env.listBucketsOk <;>
    by_cases h3 : DEFAULT_BUCKET_NAME ∈ w.buckets <;> cases h4 : env.createBucketOk <;>
      simp [ensureBucketExists, h1, h2, h3, h4, addLog]

theorem ensure_initialized (env : StorageEnv) (w : World)
    (h : (ensureBucketExists env w).value = true) :
    (ensureBucketExists env w).world.bucketInitialized = true := by
  cases h1 : w.bucketInitialized <;> cases h2 : env.listBucketsOk <;>
    by_cases h3 : DEFAULT_BUCKET_NAME ∈ w.buckets <;> cases h4 : env.createBucketOk <;>
      simp_all [ensureBucketExists, addLog]

theorem ensure_of_initialized (env : StorageEnv) (w : World) (h : w.bucketInitialized = true) :
    ensureBucketExists env w = ⟨true, w, []⟩ := by
  simp [ensureBucketExists, h]

theorem errorCount_addLog (w : World) (m : String) (lvl : LogLevel) :
    errorCount (addLog w m lvl).logs =
      errorCount w.logs + (if lvl = .error then 1 else 0) := by
  cases lvl <;> simp [addLog, errorCount, List.filter_append]

theorem ensure_errorCount_le (env : StorageEnv) (w : World) :
    errorCount w.logs ≤ errorCount (ensureBucketExists env w).world.logs := by
  cases h1 : w.bucketInitialized <;> cases h2 : env.listBucketsOk <;>
    by_cases h3 : DEFAULT_BUCKET_NAME ∈ w.buckets <;> cases h4 : env.createBucketOk <;>
      simp [ensureBucketExists, h1, h2, h3, h4, errorCount_addLog] <;> omega

theorem getGridImages_ensureFail (env : StorageEnv) (w : World)
    (h : (ensureBucketExists env w).value = false) :
    getGridImages env w =
      ⟨[], addLog (ensureBucketExists env w).world
        ("Cannot retrieve images: bucket " ++ DEFAULT_BUCKET_NAME ++ " does not exist") .error,
        (ensureBucketExists env w).calls⟩ := by
  simp [getGridImages, h]

theorem getGridImages_listFail (env : StorageEnv) (w : World)
    (h1 : (ensureBucketExists env w).value = true) (h2 : env.listOk = false) :
    getGridImages env w =
      ⟨[], addLog (addLog (addLog (ensureBucketExists env w).world
          ("Listing files in bucket " ++ DEFAULT_BUCKET_NAME) .info)
          ("Error listing files in bucket " ++ DEFAULT_BUCKET_NAME) .error)
          ("Error retrieving grid images from bucket " ++ DEFAULT_BUCKET_NAME) .error,
        (ensureBucketExists env w).calls ++ [.listFiles]⟩ := by
  simp [getGridImages, h1, h2]

theorem getGridImages_value_cases (env : StorageEnv) (w : World) :
    (getGridImages env w).value = [] ∨
    (getGridImages env w).value = slotImagesOf w.objects := by
  cases hb : (ensureBucketExists env w).value
  · left
    rw [getGridImages_ensureFail env w hb]
  · cases h2 : env.listOk
    · left
      rw [getGridImages_listFail env w hb h2]
    · by_cases h3 : w.objects.isEmpty
      · left
        have h4 : w.objects = [] := by simpa using h3
        simp [getGridImages, hb, h2, addLog, ensure_objects, h4]
      · right
        simp [getGridImages, hb, h2, addLog, ensure_objects, h3]

theorem getGridImages_success_value (env : StorageEnv) (w : World)
    (h1 : (ensureBucketExists env w).value = true) (h2 : env.listOk = true) :
    (getGridImages env w).value = slotImagesOf w.objects := by
  by_cases h3 : w.objects.isEmpty
  · have h4 : w.objects = [] := by simpa using h3
    simp [getGridImages, h1, h2, addLog, ensure_objects, h4, slotImagesOf]
  · simp [getGridImages, h1, h2, addLog, ensure_objects, h3]

theorem uploadImage_value_shape (session : Bool) (env : StorageEnv) (now : Nat)
    (d : String) (i : Nat) (w : World) (url : String)
    (h : (uploadImage session env now d i w).value = some url) :
    url = publicUrl (mkFileName i now) := by
  cases hs : session
  · simp [uploadImage, hs] at h
  · by_cases he : (ensureBucketExists env w).value = false
    · simp [uploadImage, hs, he] at h
    · cases hu : env.uploadOk
      · simp [uploadImage, hs, he, hu] at h
      · simp [uploadImage, hs, he, hu] at h
        exact h.symm

theorem deleteImage_success (env : StorageEnv) (w : World) (n : Nat)
    (h1 : (ensureBucketExists env w).value = true) (h2 : env.listOk = true)
    (h3 : env.removeOk = true) :
    (deleteImage true env n w).value = true ∧
    (deleteImage true env n w).world.objects =
      w.objects.filter (fun nm =>
        !(decide (nm ∈ w.objects.filter (fun nm2 => nameStartsWith nm2 (slotNameStart n))))) ∧
    (deleteImage true env n w).world.bucketInitialized = true := by
  have hinit := ensure_initialized env w h1
  by_cases h4 : (w.objects.filter (fun nm2 => nameStartsWith nm2 (slotNameStart n))).isEmpty
  · have h5 : w.objects.filter (fun nm2 => nameStartsWith nm2 (slotNameStart n)) = [] := by
      simpa using h4
    have h6 : w.objects.filter (fun nm => !(decide (nm ∈ ([] : List String)))) = w.objects := by
      simp
    simp [deleteImage, h1, h2, h3, h4, h5, h6, addLog, ensure_objects, hinit]
  · simp [deleteImage, h1, h2, h3, h4, addLog, ensure_objects, hinit]

-- ## Claim theorems

/-- C1: evidence against the highest-timestamp policy. getGridImages resolves a
slot with several matching stored objects by bucket list order (the last listed
object wins), not by greatest timestamp: with the listing
[slot-0-200.jpg, slot-0-100.jpg] slot 0 resolves to the URL of slot-0-100.jpg
(timestamp 100), while the reversed listing resolves it to slot-0-200.jpg. -/
theorem C1_duplicate_slot_resolves_by_list_order :
    objGet (slotImagesOf ["slot-0-200.jpg", "slot-0-100.jpg"]) 0 =
      some (publicUrl "slot-0-100.jpg") ∧
    objGet (slotImagesOf ["slot-0-100.jpg", "slot-0-200.jpg"]) 0 =
      some (publicUrl "slot-0-200.jpg") ∧
    publicUrl "slot-0-100.jpg" ≠ publicUrl "slot-0-200.jpg" :=
  ⟨by decide, by decide, by decide⟩

/-- C2: for every decodable image of intrinsic width w and height h (with a
rendering context available), processImageToSquare outputs a square canvas of
side min w h, cropped at offsetX = (w - size)/2 and offsetY = (h - size)/2,
encoded as image/jpeg at quality 0.92; in particular for w ≠ h the output is
square of side min w h. -/
theorem C2_center_crop_square (w h : Nat) (dataUrl : String) :
    processImageToSquare (.ok w h) true dataUrl =
      ⟨some (.square ⟨min w h, min w h, ((w : ℚ) - ((min w h : Nat) : ℚ)) / 2,
        ((h : ℚ) - ((min w h : Nat) : ℚ)) / 2, "image/jpeg", 92 / 100⟩), none, false⟩ ∧
    (w ≠ h → ∃ c : CroppedImage,
      (processImageToSquare (.ok w h) true dataUrl).uploaded = some (.square c) ∧
      c.width = c.height ∧ c.width = min w h ∧
      c.offsetX = ((w : ℚ) - ((min w h : Nat) : ℚ)) / 2 ∧
      c.offsetY = ((h : ℚ) - ((min w h : Nat) : ℚ)) / 2 ∧
      c.mime = "image/jpeg" ∧ c.quality = 92 / 100) :=
  ⟨rfl, fun _ => ⟨_, rfl, rfl, rfl, rfl, rfl, rfl, rfl⟩⟩

/-- Witness for C2 at a concrete 400 x 300 image. -/
theorem C2_center_crop_square_witness :
    ∃ c : CroppedImage,
      (processImageToSquare (.ok 400 300) true "d").uploaded = some (.square c) ∧
      c.width = c.height ∧ c.width = min 400 300 ∧
      c.offsetX = ((400 : ℚ) - ((min 400 300 : Nat) : ℚ)) / 2 ∧
      c.offsetY = ((300 : ℚ) - ((min 400 300 : Nat) : ℚ)) / 2 ∧
      c.mime = "image/jpeg" ∧ c.quality = 92 / 100 :=
  (C2_center_crop_square 400 300 "d").2 (by decide)

/-- C3: with no session, each mutating grid operation (upload, remove, save,
reset) only reports the sign-in message and logs the failed attempt: the slot
array, the stored objects and the buckets are untouched and no storage call is
issued; the service operations uploadImage and deleteImage likewise fail
(none / false) without touching storage when invoked without a session. -/
theorem C3_mutations_require_session (env : StorageEnv) (now idx : Nat) (url : String)
    (g : GridState) (w : World) :
    handleImageUpload false env now idx url g w =
      ({ g with error := some authUploadMsg },
        addLog w "Upload attempted without authentication" .error, []) ∧
    handleImageRemove false env idx g w =
      ({ g with error := some authRemoveMsg },
        addLog w "Image removal attempted without authentication" .error, []) ∧
    handleSave false g w =
      ({ g with error := some authSaveMsg },
        addLog w "Save attempted without authentication" .error, []) ∧
    handleReset false env g w =
      ({ g with error := some authResetMsg },
        addLog w "Reset attempted without authentication" .error, []) ∧
    (handleImageUpload false env now idx url g w).1.images = g.images ∧
    (handleImageUpload false env now idx url g w).2.1.objects = w.objects ∧
    (handleImageRemove false env idx g w).1.images = g.images ∧
    (handleReset false env g w).1.images = g.images ∧
    uploadImage false env now url idx w =
      ⟨none, addLog w ("Failed to upload image to bucket " ++ DEFAULT_BUCKET_NAME) .error, []⟩ ∧
    deleteImage false env idx w =
      ⟨false, addLog w ("Error deleting image for slot " ++ toString idx) .error, []⟩ :=
  ⟨rfl, rfl, rfl, rfl, rfl, rfl, rfl, rfl, rfl, rfl⟩

/-- C7: if decoding fails the transform reports the decode error and never
invokes the upload callback, so the slot and the world are untouched; if
decoding succeeds but no canvas context is available, the original unprocessed
data URL is handed to the upload callback instead of dropping the upload. -/
theorem C7_transform_failure_degrades (toDataUrl : CroppedImage → String)
    (session : Bool) (env : StorageEnv) (now idx wi hi : Nat) (ctxOk : Bool)
    (dataUrl : String) (g : GridState) (w : World) :
    (processImageToSquare .err ctxOk dataUrl).uploaded = none ∧
    (processImageToSquare .err ctxOk dataUrl).uploadError =
      some "Error loading image for processing" ∧
    slotUploadFlow toDataUrl session env now .err ctxOk dataUrl idx g w = (g, w, []) ∧
    (processImageToSquare (.ok wi hi) false dataUrl).uploaded =
      some (.original dataUrl) ∧
    (processImageToSquare (.ok wi hi) false dataUrl).uploadError =
      some "Failed to get canvas context" ∧
    slotUploadFlow toDataUrl session env now (.ok wi hi) false dataUrl idx g w =
      handleImageUpload session env now idx dataUrl g w :=
  ⟨rfl, rfl, rfl, rfl, rfl, rfl⟩

/-- C5: getGridImages always returns a mapping; whenever the bucket check fails
or the listing fails, the returned mapping is empty and at least one new
error-level entry has been appended to the log sink. -/
theorem C5_list_never_throws (env : StorageEnv) (w : World)
    (hfail : (ensureBucketExists env w).value = false ∨ env.listOk = false) :
    (getGridImages env w).value = [] ∧
    errorCount w.logs < errorCount (getGridImages env w).world.logs := by
  by_cases hv : (ensureBucketExists env w).value = false
  · rw [getGridImages_ensureFail env w hv]
    refine ⟨rfl, ?_⟩
    have hle := ensure_errorCount_le env w
    simp only [errorCount_addLog]
    simp
    omega
  · have hv2 : (ensureBucketExists env w).value = true := by
      cases hvv : (ensureBucketExists env w).value
      · exact absurd hvv hv
      · rfl
    have hl : env.listOk = false := by
      rcases hfail with h | h
      · exact absurd h hv
      · exact h
    rw [getGridImages_listFail env w hv2 hl]
    refine ⟨rfl, ?_⟩
    have hle := ensure_errorCount_le env w
    simp only [errorCount_addLog]
    simp
    omega

/-- Witness for C5 with a world whose bucket listing call fails. -/
theorem C5_list_never_throws_witness :
    (getGridImages ⟨false, false, false, false, false⟩ ⟨[], [], false, []⟩).value = [] ∧
    errorCount (⟨[], [], false, []⟩ : World).logs <
      errorCount (getGridImages ⟨false, false, false, false, false⟩ ⟨[], [], false, []⟩).world.logs :=
  C5_list_never_throws ⟨false, false, false, false, false⟩ ⟨[], [], false, []⟩ (by decide)

/-- C6: ensureBucketExists caches success: once the flag is set the call returns
true with no storage operations and an unchanged world; any successful call
leaves a world on which every later call is free; when the bucket is absent it
is created public with the 5242880-byte (5MB) limit; it fails when listing
fails, and when the bucket is absent and creation fails. -/
theorem C6_ensure_idempotent_cached (env env2 : StorageEnv) (w : World) :
    (w.bucketInitialized = true → ensureBucketExists env w = ⟨true, w, []⟩) ∧
    ((ensureBucketExists env w).value = true →
      ensureBucketExists env2 (ensureBucketExists env w).world =
        ⟨true, (ensureBucketExists env w).world, []⟩) ∧
    (w.bucketInitialized = false → env.listBucketsOk = true →
      DEFAULT_BUCKET_NAME ∉ w.buckets → env.createBucketOk = true →
      (ensureBucketExists env w).value = true ∧
      DEFAULT_BUCKET_NAME ∈ (ensureBucketExists env w).world.buckets ∧
      (ensureBucketExists env w).calls =
        [.listBuckets, .createBucket DEFAULT_BUCKET_NAME true 5242880]) ∧
    (w.bucketInitialized = false → env.listBucketsOk = false →
      (ensureBucketExists env w).value = false) ∧
    (w.bucketInitialized = false → env.listBucketsOk = true →
      DEFAULT_BUCKET_NAME ∉ w.buckets → env.createBucketOk = false →
      (ensureBucketExists env w).value = false) := by
  refine ⟨fun h => ensure_of_initialized env w h, ?_, ?_, ?_, ?_⟩
  · intro h
    exact ensure_of_initialized env2 _ (ensure_initialized env w h)
  · intro h1 h2 h3 h4
    refine ⟨?_, ?_, ?_⟩ <;> simp [ensureBucketExists, h1, h2, h3, h4, addLog]
  · intro h1 h2
    simp [ensureBucketExists, h1, h2]
  · intro h1 h2 h3 h4
    simp [ensureBucketExists, h1, h2, h3, h4]

/-- Witness for C6: caching after a successful call on a world already holding
the bucket, creation of the missing bucket, and the two failure modes. -/
theorem C6_ensure_idempotent_cached_witness :
    (ensureBucketExists ⟨true, true, true, true, true⟩
      ⟨[DEFAULT_BUCKET_NAME], [], true, []⟩ = ⟨true, ⟨[DEFAULT_BUCKET_NAME], [], true, []⟩, []⟩) ∧
    (ensureBucketExists ⟨false, false, false, false, false⟩
        (ensureBucketExists ⟨true, true, true, true, true⟩ ⟨[DEFAULT_BUCKET_NAME], [], false, []⟩).world =
      ⟨true, (ensureBucketExists ⟨true, true, true, true, true⟩ ⟨[DEFAULT_BUCKET_NAME], [], false, []⟩).world, []⟩) ∧
    ((ensureBucketExists ⟨true, true, true, true, true⟩ ⟨[], [], false, []⟩).value = true ∧
      DEFAULT_BUCKET_NAME ∈ (ensureBucketExists ⟨true, true, true, true, true⟩ ⟨[], [], false, []⟩).world.buckets ∧
      (ensureBucketExists ⟨true, true, true, true, true⟩ ⟨[], [], false, []⟩).calls =
        [.listBuckets, .createBucket DEFAULT_BUCKET_NAME true 5242880]) ∧
    ((ensureBucketExists ⟨false, true, true, true, true⟩ ⟨[], [], false, []⟩).value = false) ∧
    ((ensureBucketExists ⟨true, false, true, true, true⟩ ⟨[], [], false, []⟩).value = false) :=
  ⟨(C6_ensure_idempotent_cached ⟨true, true, true, true, true⟩ ⟨true, true, true, true, true⟩
      ⟨[DEFAULT_BUCKET_NAME], [], true, []⟩).1 rfl,
   (C6_ensure_idempotent_cached ⟨true, true, true, true, true⟩ ⟨false, false, false, false, false⟩
      ⟨[DEFAULT_BUCKET_NAME], [], false, []⟩).2.1 (by decide),
   (C6_ensure_idempotent_cached ⟨true, true, true, true, true⟩ ⟨true, true, true, true, true⟩
      ⟨[], [], false, []⟩).2.2.1 rfl rfl (by decide) rfl,
   (C6_ensure_idempotent_cached ⟨false, true, true, true, true⟩ ⟨true, true, true, true, true⟩
      ⟨[], [], false, []⟩).2.2.2.1 rfl rfl,
   (C6_ensure_idempotent_cached ⟨true, false, true, true, true⟩ ⟨true, true, true, true, true⟩
      ⟨[], [], false, []⟩).2.2.2.2 rfl rfl (by decide) rfl⟩

/-- C4: with a working store and canonically named objects, deleteImage n
succeeds, removes every stored object whose name starts with slot-n-, is a
no-op success when none matches, and an immediately following getGridImages
reports slot n absent from the returned mapping. -/
theorem C4_delete_then_absent (env : StorageEnv) (w : World) (n : Nat)
    (hwf : ∀ nm ∈ w.objects, wfName nm = true)
    (he : (ensureBucketExists env w).value = true)
    (hl : env.listOk = true) (hr : env.removeOk = true) :
    (deleteImage true env n w).value = true ∧
    (∀ nm ∈ w.objects, nameStartsWith nm (slotNameStart n) = true →
      nm ∉ (deleteImage true env n w).world.objects) ∧
    (w.objects.filter (fun nm => nameStartsWith nm (slotNameStart n)) = [] →
      (deleteImage true env n w).world.objects = w.objects) ∧
    objGet (getGridImages env (deleteImage true env n w).world).value n = none := by
  obtain ⟨hval, hobj, hinit⟩ := deleteImage_success env w n he hl hr
  refine ⟨hval, ?_, ?_, ?_⟩
  · intro nm hnm hstart hmem
    rw [hobj] at hmem
    have hpred := (List.mem_filter.mp hmem).2
    have hin : nm ∈ w.objects.filter (fun nm2 => nameStartsWith nm2 (slotNameStart n)) :=
      List.mem_filter.mpr ⟨hnm, hstart⟩
    simp [hin] at hpred
  · intro hempty
    rw [hobj, hempty]
    simp
  · have hv : (ensureBucketExists env (deleteImage true env n w).world).value = true := by
      rw [ensure_of_initialized env _ hinit]
    rw [getGridImages_success_value env _ hv hl]
    apply objGet_slotImagesOf_none
    intro nm hnm hparse
    rw [hobj] at hnm
    have h1 := List.mem_filter.mp hnm
    have hstart : nameStartsWith nm (slotNameStart n) = true := by
      have hw := hwf nm h1.1
      simp only [wfName, hparse] at hw
      exact hw
    have hin : nm ∈ w.objects.filter (fun nm2 => nameStartsWith nm2 (slotNameStart n)) :=
      List.mem_filter.mpr ⟨h1.1, hstart⟩
    have hpred := h1.2
    simp [hin] at hpred

/-- Witness for C4: deleting slot 3 among three stored objects, two of them
for slot 3, then listing. -/
theorem C4_delete_then_absent_witness :
    (deleteImage true ⟨true, true, true, true, true⟩ 3
      ⟨[DEFAULT_BUCKET_NAME], ["slot-3-100.jpg", "slot-3-200.jpg", "slot-4-100.jpg"], true, []⟩).value = true ∧
    objGet (getGridImages ⟨true, true, true, true, true⟩
      (deleteImage true ⟨true, true, true, true, true⟩ 3
        ⟨[DEFAULT_BUCKET_NAME], ["slot-3-100.jpg", "slot-3-200.jpg", "slot-4-100.jpg"], true, []⟩).world).value 3 = none :=
  ⟨(C4_delete_then_absent ⟨true, true, true, true, true⟩
      ⟨[DEFAULT_BUCKET_NAME], ["slot-3-100.jpg", "slot-3-200.jpg", "slot-4-100.jpg"], true, []⟩ 3
      (by decide) (by decide) rfl rfl).1,
   (C4_delete_then_absent ⟨true, true, true, true, true⟩
      ⟨[DEFAULT_BUCKET_NAME], ["slot-3-100.jpg", "slot-3-200.jpg", "slot-4-100.jpg"], true, []⟩ 3
      (by decide) (by decide) rfl rfl).2.2.2⟩

/-- C9: reloading the grid only overwrites slots present in the remote
mapping: a slot with no matching stored object keeps its previous in-memory
value across loadImagesFromSupabase, on every path of the load. -/
theorem C9_reload_preserves_absent_slots (env : StorageEnv) (g : GridState) (w : World)
    (k : Nat) (habs : ∀ nm ∈ w.objects, parseSlot nm ≠ some k) :
    (loadImagesFromSupabase env g w).1.images[k]? = g.images[k]? := by
  cases hv : (ensureBucketExists env (addLog w "Loading images from Supabase" .info)).value
  · simp [loadImagesFromSupabase, hv]
  · have hobj : (ensureBucketExists env (addLog w "Loading images from Supabase" .info)).world.objects
        = w.objects := by
      rw [ensure_objects]
      simp [addLog]
    rcases getGridImages_value_cases env
        (ensureBucketExists env (addLog w "Loading images from Supabase" .info)).world with hm | hm
    · simp [loadImagesFromSupabase, hv, hm, applyRemote]
    · simp only [loadImagesFromSupabase, hv]
      simp only [Bool.true_eq_false, if_false]
      rw [hm, hobj]
      exact applyRemote_getElem?_absent _ _ _ (objGet_slotImagesOf_none _ _ habs)

/-- Witness for C9: slot 5 has no stored object, so a reload keeps its
in-memory value. -/
theorem C9_reload_preserves_absent_slots_witness :
    (loadImagesFromSupabase ⟨true, true, true, true, true⟩
      ⟨List.replicate 9 "x", "", none, false⟩
      ⟨[DEFAULT_BUCKET_NAME], ["slot-2-10.jpg"], true, []⟩).1.images[5]? =
    (⟨List.replicate 9 "x", "", none, false⟩ : GridState).images[5]? :=
  C9_reload_preserves_absent_slots ⟨true, true, true, true, true⟩
    ⟨List.replicate 9 "x", "", none, false⟩
    ⟨[DEFAULT_BUCKET_NAME], ["slot-2-10.jpg"], true, []⟩ 5 (by decide)

/-- C10: getGridImages keeps an entry for every name matching the slot
pattern, whatever the parsed slot number is (so keys outside 0..8 can occur);
the grid loader ignores exactly the entries with key at least 9, so
out-of-range stored objects never modify the image array. -/
theorem C10_out_of_range_keys (files : List String) (nm : String) (k : Nat)
    (images : List String) (m : List (Nat × String))
    (h1 : nm ∈ files) (h2 : parseSlot nm = some k) :
    (objGet (slotImagesOf files) k).isSome = true ∧
    applyRemote images m = applyRemote images (m.filter (fun p => decide (p.1 < 9))) ∧
    applyRemote (List.replicate 9 "") (slotImagesOf ["slot-12-5.jpg"]) =
      List.replicate 9 "" :=
  ⟨objGet_foldl_isSome files k [] (Or.inr ⟨nm, h1, h2⟩),
   applyRemote_filter_lt9 m images, by decide⟩

/-- Witness for C10: a stored object for slot 12 yields key 12 in the mapping
yet leaves the nine-element array unchanged. -/
theorem C10_out_of_range_keys_witness :
    (objGet (slotImagesOf ["slot-12-5.jpg"]) 12).isSome = true ∧
    applyRemote [] [(12, "u")] = applyRemote [] ([(12, "u")].filter (fun p => decide (p.1 < 9))) ∧
    applyRemote (List.replicate 9 "") (slotImagesOf ["slot-12-5.jpg"]) =
      List.replicate 9 "" :=
  C10_out_of_range_keys ["slot-12-5.jpg"] "slot-12-5.jpg" 12 [] [(12, "u")]
    (by decide) (by decide)

/-- C8: the slot collection always has exactly nine elements: the initial
array is nine empty strings, and load, upload, remove, reset and save all
preserve length nine; moreover every element stays either the empty string or
the public URL of some stored object. -/
theorem C8_grid_always_nine_slots :
    initialGridState.images.length = 9 ∧
    (∀ s ∈ initialGridState.images, slotRefOk s) ∧
    (∀ (env : StorageEnv) (g : GridState) (w : World), g.images.length = 9 →
      (loadImagesFromSupabase env g w).1.images.length = 9) ∧
    (∀ (env : StorageEnv) (g : GridState) (w : World), (∀ s ∈ g.images, slotRefOk s) →
      ∀ s ∈ (loadImagesFromSupabase env g w).1.images, slotRefOk s) ∧
    (∀ (session : Bool) (env : StorageEnv) (now idx : Nat) (url : String)
        (g : GridState) (w : World), g.images.length = 9 →
      (handleImageUpload session env now idx url g w).1.images.length = 9) ∧
    (∀ (session : Bool) (env : StorageEnv) (now idx : Nat) (url : String)
        (g : GridState) (w : World), (∀ s ∈ g.images, slotRefOk s) →
      ∀ s ∈ (handleImageUpload session env now idx url g w).1.images, slotRefOk s) ∧
    (∀ (session : Bool) (env : StorageEnv) (idx : Nat) (g : GridState) (w : World),
      g.images.length = 9 →
      (handleImageRemove session env idx g w).1.images.length = 9) ∧
    (∀ (session : Bool) (env : StorageEnv) (idx : Nat) (g : GridState) (w : World),
      (∀ s ∈ g.images, slotRefOk s) →
      ∀ s ∈ (handleImageRemove session env idx g w).1.images, slotRefOk s) ∧
    (∀ (session : Bool) (env : StorageEnv) (g : GridState) (w : World),
      g.images.length = 9 → (handleReset session env g w).1.images.length = 9) ∧
    (∀ (session : Bool) (env : StorageEnv) (g : GridState) (w : World),
      (∀ s ∈ g.images, slotRefOk s) →
      ∀ s ∈ (handleReset session env g w).1.images, slotRefOk s) ∧
    (∀ (session : Bool) (g : GridState) (w : World),
      (handleSave session g w).1.images = g.images) := by
  refine ⟨by simp [initialGridState], ?_, ?_, ?_, ?_, ?_, ?_, ?_, ?_, ?_, ?_⟩
  · intro s hs
    exact Or.inl (List.eq_of_mem_replicate hs)
  · intro env g w hlen
    cases hv : (ensureBucketExists env (addLog w "Loading images from Supabase" .info)).value
    · simpa [loadImagesFromSupabase, hv] using hlen
    · simpa [loadImagesFromSupabase, hv, applyRemote_length] using hlen
  · intro env g w href s hs
    cases hv : (ensureBucketExists env (addLog w "Loading images from Supabase" .info)).value
    · rw [show (loadImagesFromSupabase env g w).1.images = g.images by
        simp [loadImagesFromSupabase, hv]] at hs
      exact href s hs
    · rw [show (loadImagesFromSupabase env g w).1.images =
          applyRemote g.images (getGridImages env
            (ensureBucketExists env (addLog w "Loading images from Supabase" .info)).world).value by
        simp [loadImagesFromSupabase, hv]] at hs
      rcases mem_applyRemote _ _ _ hs with h | ⟨p, hp, hsp⟩
      · exact href s h
      · rcases getGridImages_value_cases env
            (ensureBucketExists env (addLog w "Loading images from Supabase" .info)).world with hm | hm
        · rw [hm] at hp
          exact absurd hp (List.not_mem_nil p)
        · rw [hm] at hp
          rcases mem_slotImagesOf _ _ hp with ⟨nm, _, _, hurl⟩
          exact Or.inr ⟨nm, by rw [hsp, hurl]⟩
  · intro session env now idx url g w hlen
    cases hs : session
    · simpa [handleImageUpload, hs] using hlen
    · cases hu : (uploadImage true env now url idx
          (addLog w ("Uploading image to slot " ++ toString (idx + 1)) .info)).value
      · simpa [handleImageUpload, hs, hu] using hlen
      · simpa [handleImageUpload, hs, hu, List.length_set] using hlen
  · intro session env now idx url g w href s hsm
    cases hs : session
    · rw [show (handleImageUpload session env now idx url g w).1.images = g.images by
        simp [handleImageUpload, hs]] at hsm
      exact href s hsm
    · cases hu : (uploadImage true env now url idx
          (addLog w ("Uploading image to slot " ++ toString (idx + 1)) .info)).value with
      | none =>
        rw [show (handleImageUpload session env now idx url g w).1.images = g.images by
          simp [handleImageUpload, hs, hu]] at hsm
        exact href s hsm
      | some u =>
        rw [show (handleImageUpload session env now idx url g w).1.images =
            g.images.set idx u by simp [handleImageUpload, hs, hu]] at hsm
        rcases List.mem_or_eq_of_mem_set hsm with h | h
        · exact href s h
        · refine Or.inr ⟨mkFileName idx now, ?_⟩
          rw [h]
          exact uploadImage_value_shape true env now url idx _ u hu
  · intro session env idx g w hlen
    cases hs : session
    · simpa [handleImageRemove, hs] using hlen
    · simpa [handleImageRemove, hs, List.length_set] using hlen
  · intro session env idx g w href s hsm
    cases hs : session
    · rw [show (handleImageRemove session env idx g w).1.images = g.images by
        simp [handleImageRemove, hs]] at hsm
      exact href s hsm
    · rw [show (handleImageRemove session env idx g w).1.images =
          g.images.set idx "" by simp [handleImageRemove, hs]] at hsm
      rcases List.mem_or_eq_of_mem_set hsm with h | h
      · exact href s h
      · exact Or.inl h
  · intro session env g w hlen
    cases hs : session
    · simpa [handleReset, hs] using hlen
    · simp [handleReset, hs]
  · intro session env g w href s hsm
    cases hs : session
    · rw [show (handleReset session env g w).1.images = g.images by
        simp [handleReset, hs]] at hsm
      exact href s hsm
    · rw [show (handleReset session env g w).1.images = List.replicate 9 "" by
        simp [handleReset, hs]] at hsm
      exact Or.inl (List.eq_of_mem_replicate hsm)
  · intro session g w
    cases hs : session <;> simp [handleSave, hs]

/-- Witness for C8 on concrete states: load, upload, remove and reset all keep
nine slots, and a loaded slot value satisfies the slot reference invariant. -/
theorem C8_grid_always_nine_slots_witness :
    (loadImagesFromSupabase ⟨true, true, true, true, true⟩ initialGridState
      ⟨[DEFAULT_BUCKET_NAME], [], true, []⟩).1.images.length = 9 ∧
    slotRefOk "" ∧
    (handleImageUpload true ⟨true, true, true, true, true⟩ 5 0 "u" initialGridState
      ⟨[DEFAULT_BUCKET_NAME], [], true, []⟩).1.images.length = 9 ∧
    (handleImageRemove true ⟨true, true, true, true, true⟩ 0 initialGridState
      ⟨[DEFAULT_BUCKET_NAME], [], true, []⟩).1.images.length = 9 ∧
    (handleReset true ⟨true, true, true, true, true⟩ initialGridState
      ⟨[DEFAULT_BUCKET_NAME], [], true, []⟩).1.images.length = 9 :=
  ⟨C8_grid_always_nine_slots.2.2.1 ⟨true, true, true, true, true⟩ initialGridState
      ⟨[DEFAULT_BUCKET_NAME], [], true, []⟩ (by decide),
   C8_grid_always_nine_slots.2.2.2.1 ⟨true, true, true, true, true⟩ initialGridState
      ⟨[DEFAULT_BUCKET_NAME], [], true, []⟩
      (fun s hs => Or.inl (List.eq_of_mem_replicate hs)) "" (by decide),
   C8_grid_always_nine_slots.2.2.2.2.1 true ⟨true, true, true, true, true⟩ 5 0 "u"
      initialGridState ⟨[DEFAULT_BUCKET_NAME], [], true, []⟩ (by decide),
   C8_grid_always_nine_slots.2.2.2.2.2.2.1 true ⟨true, true, true, true, true⟩ 0
      initialGridState ⟨[DEFAULT_BUCKET_NAME], [], true, []⟩ (by decide),
   C8_grid_always_nine_slots.2.2.2.2.2.2.2.2.1 true ⟨true, true, true, true, true⟩
      initialGridState ⟨[DEFAULT_BUCKET_NAME], [], true, []⟩ (by decide)⟩
